import Mathlib

/-!
Shallow embedding of the core of the gemini-watermark-remover repository.

Pixel buffers are modelled as total functions from (row, col, channel) to
rational channel values together with explicit height/width; numpy float
arithmetic is modelled by exact rational arithmetic, and `astype(np.uint8)`
after a `np.clip(·, 0, 255)` is modelled by clamping followed by `Int.floor`.
External OpenCV routines (inpainting, remapping, grayscale conversion,
Farneback optical flow) are taken as parameters of the functions that call
them; everything the repository itself computes is embedded executably,
except for flow magnitudes, which involve a real square root.
-/

namespace GWR

/-- Mean of a list of rationals, as `np.mean` computes it (sum over length). -/
def listMean (l : List ℚ) : ℚ := l.sum / l.length

/-- Mean of a list of reals (used for optical-flow magnitudes). -/
noncomputable def listMeanR (l : List ℝ) : ℝ := l.sum / l.length

/-- Row-major list of the cell indices of an `h × w` grid. -/
def cells (h w : ℕ) : List (ℕ × ℕ) :=
  (List.range h).flatMap fun i => (List.range w).map fun j => (i, j)

/-- A pixel buffer: height, width and a total map from (row, col, channel) to
the channel value.  8-bit buffers carry naturals `0..255` in the `ℚ` values. -/
structure Frame where
  h : ℕ
  w : ℕ
  px : ℕ → ℕ → ℕ → ℚ

/-- A single-channel (grayscale) buffer. -/
structure GrayFrame where
  h : ℕ
  w : ℕ
  px : ℕ → ℕ → ℚ

/-- Constant `ALPHA_THRESHOLD = 0.002` from `core/__init__.py`. -/
def ALPHA_THRESHOLD : ℚ := 1/500

/-- Constant `MAX_ALPHA = 0.99` from `core/__init__.py`. -/
def MAX_ALPHA : ℚ := 99/100

/-- Constant `LOGO_VALUE = 255` from `core/__init__.py`. -/
def LOGO_VALUE : ℚ := 255

/-- Constant `LARGE_IMAGE_THRESHOLD = 1024` from `core/__init__.py`. -/
def LARGE_IMAGE_THRESHOLD : ℤ := 1024

/-- Constant `SMALL_WATERMARK_SIZE = 48`. -/
def SMALL_WATERMARK_SIZE : ℤ := 48

/-- Constant `LARGE_WATERMARK_SIZE = 96`. -/
def LARGE_WATERMARK_SIZE : ℤ := 96

/-- Constant `SMALL_MARGIN = 32`. -/
def SMALL_MARGIN : ℤ := 32

/-- Constant `LARGE_MARGIN = 64`. -/
def LARGE_MARGIN : ℤ := 64

/-- Constant `VEO_WATERMARK_WIDTH = 100`. -/
def VEO_WATERMARK_WIDTH : ℤ := 100

/-- Constant `VEO_WATERMARK_HEIGHT = 45`. -/
def VEO_WATERMARK_HEIGHT : ℤ := 45

/-- Constant `VEO_MIN_MARGIN_X = 15`. -/
def VEO_MIN_MARGIN_X : ℤ := 15

/-- Constant `VEO_MIN_MARGIN_Y = 15`. -/
def VEO_MIN_MARGIN_Y : ℤ := 15

/-- Constant `SCENE_CUT_THRESHOLD = 30.0`. -/
noncomputable def SCENE_CUT_THRESHOLD : ℝ := 30

/-- Constant `FLOW_MAGNITUDE_THRESHOLD = 100.0`. -/
noncomputable def FLOW_MAGNITUDE_THRESHOLD : ℝ := 100

/-- Constant `TEMPORAL_BLEND_ALPHA = 0.7`. -/
def TEMPORAL_BLEND_ALPHA : ℚ := 7/10

/-- Constant `CHANGE_CLAMP_THRESHOLD = 50.0`. -/
def CHANGE_CLAMP_THRESHOLD : ℚ := 50

/-- The blend-type watermark region, `core/position.py`. -/
structure WatermarkPosition where
  x : ℤ
  y : ℤ
  width : ℤ
  height : ℤ
  size : ℤ

/-- `calculate_watermark_position` from `core/position.py` (lines 29-44). -/
def calculate_watermark_position (image_width image_height : ℤ) : WatermarkPosition :=
  if image_width > LARGE_IMAGE_THRESHOLD ∨ image_height > LARGE_IMAGE_THRESHOLD then
    { x := image_width - LARGE_MARGIN - LARGE_WATERMARK_SIZE
      y := image_height - LARGE_MARGIN - LARGE_WATERMARK_SIZE
      width := LARGE_WATERMARK_SIZE
      height := LARGE_WATERMARK_SIZE
      size := LARGE_WATERMARK_SIZE }
  else
    { x := image_width - SMALL_MARGIN - SMALL_WATERMARK_SIZE
      y := image_height - SMALL_MARGIN - SMALL_WATERMARK_SIZE
      width := SMALL_WATERMARK_SIZE
      height := SMALL_WATERMARK_SIZE
      size := SMALL_WATERMARK_SIZE }

/-- The overlay-type (Veo) watermark region, `core/position.py`. -/
structure VeoWatermarkPosition where
  x : ℤ
  y : ℤ
  width : ℤ
  height : ℤ

/-- `calculate_veo_watermark_position` from `core/position.py` (lines 57-82).
Python `int(v * 0.025)` truncates towards zero, which on the nonnegative
dimensions occurring here is the floor; the margin ratios `0.025` and `0.015`
are written as exact rationals. -/
def calculate_veo_watermark_position (video_width video_height : ℤ) : VeoWatermarkPosition :=
  let margin_x := max VEO_MIN_MARGIN_X ⌊(video_width : ℚ) * (25/1000)⌋
  let margin_y := max VEO_MIN_MARGIN_Y ⌊(video_height : ℚ) * (15/1000)⌋
  let x := max 0 (video_width - margin_x - VEO_WATERMARK_WIDTH)
  let y := max 0 (video_height - margin_y - VEO_WATERMARK_HEIGHT)
  let x := if x + VEO_WATERMARK_WIDTH > video_width then video_width - VEO_WATERMARK_WIDTH else x
  let y := if y + VEO_WATERMARK_HEIGHT > video_height then video_height - VEO_WATERMARK_HEIGHT else y
  { x := x, y := y, width := VEO_WATERMARK_WIDTH, height := VEO_WATERMARK_HEIGHT }

/-- Per-cell grayscale of a 3-channel region, `np.mean(region, axis=2)`. -/
def grayOf (region : ℕ → ℕ → ℕ → ℚ) (i j : ℕ) : ℚ :=
  (region i j 0 + region i j 1 + region i j 2) / 3

/-- Cells of the alpha map with opacity `≥ 0.1` (`high_alpha_mask`). -/
def highCells (alpha_map : ℕ → ℕ → ℚ) (h w : ℕ) : List (ℕ × ℕ) :=
  (cells h w).filter fun p => decide (1/10 ≤ alpha_map p.1 p.2)

/-- Cells of the alpha map with opacity `< 0.05` (`low_alpha_mask`). -/
def lowCells (alpha_map : ℕ → ℕ → ℚ) (h w : ℕ) : List (ℕ × ℕ) :=
  (cells h w).filter fun p => decide (alpha_map p.1 p.2 < 1/20)

/-- Cells of the alpha map with opacity `≥ 0.5` (`very_high_alpha`). -/
def veryHighCells (alpha_map : ℕ → ℕ → ℚ) (h w : ℕ) : List (ℕ × ℕ) :=
  (cells h w).filter fun p => decide (1/2 ≤ alpha_map p.1 p.2)

/-- Mean grayscale brightness of a region over a list of cells. -/
def meanGrayOver (region : ℕ → ℕ → ℕ → ℚ) (l : List (ℕ × ℕ)) : ℚ :=
  listMean (l.map fun p => grayOf region p.1 p.2)

/-- Mean opacity over a list of cells. -/
def meanAlphaOver (alpha_map : ℕ → ℕ → ℚ) (l : List (ℕ × ℕ)) : ℚ :=
  listMean (l.map fun p => alpha_map p.1 p.2)

/-- `brightness_diff = high_brightness - low_brightness`, `core/blend.py` line 31. -/
def brightnessDiff (region : ℕ → ℕ → ℕ → ℚ) (alpha_map : ℕ → ℕ → ℚ) (h w : ℕ) : ℚ :=
  meanGrayOver region (highCells alpha_map h w) - meanGrayOver region (lowCells alpha_map h w)

/-- `expected_diff = avg_high_alpha * LOGO_VALUE * 0.5`, `core/blend.py` line 36. -/
def expectedDiff (alpha_map : ℕ → ℕ → ℚ) (h w : ℕ) : ℚ :=
  meanAlphaOver alpha_map (highCells alpha_map h w) * LOGO_VALUE * (1/2)

/-- `expected_brightness = low_brightness * (1 - avg_very_high_alpha) + LOGO_VALUE *
avg_very_high_alpha`, `core/blend.py` line 46. -/
def expectedVeryHighBrightness (region : ℕ → ℕ → ℕ → ℚ) (alpha_map : ℕ → ℕ → ℚ)
    (h w : ℕ) : ℚ :=
  meanGrayOver region (lowCells alpha_map h w) *
      (1 - meanAlphaOver alpha_map (veryHighCells alpha_map h w)) +
    LOGO_VALUE * meanAlphaOver alpha_map (veryHighCells alpha_map h w)

/-- `detect_gemini_watermark` from `core/blend.py` (lines 8-52): the presence
detector guarding the inverse blend. -/
def detect_gemini_watermark (region : ℕ → ℕ → ℕ → ℚ) (alpha_map : ℕ → ℕ → ℚ)
    (h w : ℕ) : Bool :=
  if (highCells alpha_map h w).isEmpty || (lowCells alpha_map h w).isEmpty then false
  else if brightnessDiff region alpha_map h w < expectedDiff alpha_map h w then false
  else if (veryHighCells alpha_map h w).isEmpty then true
  else if meanGrayOver region (veryHighCells alpha_map h w) <
      expectedVeryHighBrightness region alpha_map h w * (7/10) then false
  else true

/-- `np.clip(v, 0, 255)`. -/
def clipTo255 (v : ℚ) : ℚ := max 0 (min 255 v)

/-- `np.clip(v, 0, 255).astype(np.uint8)`: clamp, then truncate to an integer
(truncation towards zero equals the floor after the clamp to `[0, 255]`). -/
def toUint8 (v : ℚ) : ℚ := (⌊clipTo255 v⌋ : ℚ)

/-- The forward compositing formula that produced the watermark,
`watermarked = original * (1 - alpha) + 255 * alpha` (documented in
`core/blend.py` lines 41 and 63). -/
def forwardBlendValue (original alpha : ℚ) : ℚ :=
  original * (1 - alpha) + LOGO_VALUE * alpha

/-- The per-channel inverse used by `remove_watermark`,
`original = (watermarked - alpha * LOGO_VALUE) / (1 - alpha)`
(`core/blend.py` lines 100-104). -/
def inverseBlendValue (watermarked alpha : ℚ) : ℚ :=
  (watermarked - alpha * LOGO_VALUE) / (1 - alpha)

/-- Slice assignment `image[y:y+h, x:x+w] = vals` on all channels. -/
def writeRect (image : Frame) (x y w h : ℤ) (vals : ℕ → ℕ → ℕ → ℚ) : Frame :=
  let f : ℕ → ℕ → ℕ → ℚ := fun i j c =>
    if y ≤ (i : ℤ) ∧ (i : ℤ) < y + h ∧ x ≤ (j : ℤ) ∧ (j : ℤ) < x + w then
      vals (i - y.toNat) (j - x.toNat) c
    else image.px i j c
  { image with px := f }

/-- Slice assignment `image[y:y+h, x:x+w, :3] = vals` touching only the first
three channels. -/
def writeRectRGB (image : Frame) (x y w h : ℤ) (vals : ℕ → ℕ → ℕ → ℚ) : Frame :=
  let f : ℕ → ℕ → ℕ → ℚ := fun i j c =>
    if y ≤ (i : ℤ) ∧ (i : ℤ) < y + h ∧ x ≤ (j : ℤ) ∧ (j : ℤ) < x + w ∧ c < 3 then
      vals (i - y.toNat) (j - x.toNat) c
    else image.px i j c
  { image with px := f }

/-- `remove_watermark` from `core/blend.py` (lines 55-116): bounds check, the
presence-detection guard (run on the region with the clipped alpha map), the
reverse alpha blend on cells whose original opacity is at least
`ALPHA_THRESHOLD`, final clamp to `[0, 255]` with conversion to `uint8`, and a
write-back restricted to channels `:3` of the region. -/
def remove_watermark (image : Frame) (alpha_map : ℕ → ℕ → ℚ)
    (position : WatermarkPosition) : Frame :=
  if position.x < 0 ∨ position.y < 0 ∨ position.x + position.width > (image.w : ℤ) ∨
      position.y + position.height > (image.h : ℤ) then image
  else
    let region : ℕ → ℕ → ℕ → ℚ := fun i j c =>
      image.px (position.y.toNat + i) (position.x.toNat + j) c
    let alpha : ℕ → ℕ → ℚ := fun i j => max 0 (min MAX_ALPHA (alpha_map i j))
    if detect_gemini_watermark region alpha position.height.toNat position.width.toNat then
      let restored : ℕ → ℕ → ℕ → ℚ := fun i j c => inverseBlendValue (region i j c) (alpha i j)
      let result : ℕ → ℕ → ℕ → ℚ := fun i j c =>
        toUint8 (if ALPHA_THRESHOLD ≤ alpha_map i j then restored i j c else region i j c)
      writeRectRGB image position.x position.y position.width position.height result
    else image

/-- Insertion into a sorted list of rationals. -/
def sortedInsert (v : ℚ) : List ℚ → List ℚ
  | [] => [v]
  | u :: us => if v ≤ u then v :: u :: us else u :: sortedInsert v us

/-- Ascending sort of a list of rationals. -/
def sortAsc (l : List ℚ) : List ℚ := l.foldr sortedInsert []

/-- `np.percentile(l, 30)` with numpy's default linear interpolation between
the order statistics at fractional rank `(n - 1) * 0.30`. -/
def percentile30 (l : List ℚ) : ℚ :=
  let s := sortAsc l
  let pos : ℚ := ((s.length : ℚ) - 1) * (30/100)
  let k : ℤ := ⌊pos⌋
  let lo := s.getD k.toNat 0
  let hi := s.getD (k.toNat + 1) lo
  lo + (pos - (k : ℚ)) * (hi - lo)

/-- The target crop `image[y:y+h, x:x+w]` of `remove_veo_watermark`. -/
def veoTarget (image : Frame) (pos : VeoWatermarkPosition) : ℕ → ℕ → ℕ → ℚ :=
  fun i j c => image.px (pos.y.toNat + i) (pos.x.toNat + j) c

/-- The source crop `image[y-h:y, x:x+w]` of `remove_veo_watermark` (the
equally sized strip immediately above the target region). -/
def veoSource (image : Frame) (pos : VeoWatermarkPosition) : ℕ → ℕ → ℕ → ℚ :=
  fun i j c => image.px (pos.y.toNat - pos.height.toNat + i) (pos.x.toNat + j) c

/-- `background_level = np.percentile(target_gray, 30)`, `processors/video.py`
line 115. -/
def veoBackgroundLevel (image : Frame) (pos : VeoWatermarkPosition) : ℚ :=
  percentile30 ((cells pos.height.toNat pos.width.toNat).map fun p =>
    grayOf (veoTarget image pos) p.1 p.2)

/-- `source_mean = source_gray.mean()`, `processors/video.py` line 116. -/
def veoSourceMean (image : Frame) (pos : VeoWatermarkPosition) : ℚ :=
  listMean ((cells pos.height.toNat pos.width.toNat).map fun p =>
    grayOf (veoSource image pos) p.1 p.2)

/-- `is_dynamic = abs(source_mean - background_level) > max(15,
background_level * 0.5)`, `processors/video.py` lines 119-120. -/
def veoIsDynamic (image : Frame) (pos : VeoWatermarkPosition) : Prop :=
  |veoSourceMean image pos - veoBackgroundLevel image pos| >
    max 15 (veoBackgroundLevel image pos * (1/2))

instance veoIsDynamicDecidable (image : Frame) (pos : VeoWatermarkPosition) :
    Decidable (veoIsDynamic image pos) := by
  unfold veoIsDynamic; infer_instance

/-- Binary dilation of an `h × w` 0/1 mask with the 3 × 3 all-ones kernel,
`cv2.dilate(mask, np.ones((3, 3)), iterations=1)`: a cell becomes 1 when any
in-bounds neighbour (itself included) is 1. -/
def dilate3x3 (mask : ℕ → ℕ → ℕ) (h w : ℕ) : ℕ → ℕ → ℕ := fun i j =>
  (((List.range 3).flatMap fun di => (List.range 3).map fun dj =>
    if 1 ≤ i + di ∧ 1 ≤ j + dj ∧ i + di - 1 < h ∧ j + dj - 1 < w then
      mask (i + di - 1) (j + dj - 1)
    else 0).foldr max 0)

/-- The static-path reconstruction of `remove_veo_watermark`
(`processors/video.py` lines 157-172): the source crop with the top five rows
and then the left five columns feathered against the target crop
(`(1 - alpha) * target + alpha * result`).  The source's feather loops index
rows and columns `0..4` unconditionally, so this matches the source for the
regions it is run on (whose height and width are at least 5). -/
def veoStaticResult (image : Frame) (pos : VeoWatermarkPosition) : ℕ → ℕ → ℕ → ℚ :=
  let target := veoTarget image pos
  let top : ℕ → ℕ → ℕ → ℚ := fun i j c =>
    if i < 5 then (1 - (i : ℚ)/5) * target i j c + ((i : ℚ)/5) * veoSource image pos i j c
    else veoSource image pos i j c
  fun i j c =>
    if j < 5 then (1 - (j : ℚ)/5) * target i j c + ((j : ℚ)/5) * top i j c
    else top i j c

/-- `remove_veo_watermark` from `processors/video.py` (lines 75-176).  The
external `cv2.inpaint` call of the dynamic path is a parameter `inpaintF`
taking the extended region and the extended mask; everything else is embedded
from the source: bounds checks, the static/dynamic classification, the
watermark mask with its 3 × 3 dilation, the extended-rectangle bookkeeping of
the inpainting path, the feathered sampling of the static path, and the final
clamped `uint8` write-back into `image[y:y+h, x:x+w]`. -/
def remove_veo_watermark (inpaintF : Frame → (ℕ → ℕ → ℕ) → Frame)
    (image : Frame) (veo_pos : VeoWatermarkPosition) : Frame :=
  if veo_pos.x < 0 ∨ veo_pos.y < 0 ∨ veo_pos.x + veo_pos.width > (image.w : ℤ) ∨
      veo_pos.y + veo_pos.height > (image.h : ℤ) then image
  else if veo_pos.y < veo_pos.height then image
  else
    let hN := veo_pos.height.toNat
    let wN := veo_pos.width.toNat
    let target_gray : ℕ → ℕ → ℚ := grayOf (veoTarget image veo_pos)
    if veoIsDynamic image veo_pos then
      let watermark_threshold := max 30 (veoBackgroundLevel image veo_pos * (1/2))
      let mask0 : ℕ → ℕ → ℕ := fun i j =>
        if watermark_threshold < target_gray i j - veoBackgroundLevel image veo_pos then 1 else 0
      if (cells hN wN).all fun p => mask0 p.1 p.2 == 0 then image
      else
        let mask := dilate3x3 mask0 hN wN
        let ey1 := (max 0 (veo_pos.y - 10)).toNat
        let ey2 := min image.h (veo_pos.y.toNat + hN + 10)
        let ex1 := (max 0 (veo_pos.x - 10)).toNat
        let ex2 := min image.w (veo_pos.x.toNat + wN + 10)
        let extRegion : Frame := ⟨ey2 - ey1, ex2 - ex1, fun i j c => image.px (ey1 + i) (ex1 + j) c⟩
        let my := veo_pos.y.toNat - ey1
        let mx := veo_pos.x.toNat - ex1
        let extMask : ℕ → ℕ → ℕ := fun i j =>
          if my ≤ i ∧ i < my + hN ∧ mx ≤ j ∧ j < mx + wN then mask (i - my) (j - mx) else 0
        let inpainted := inpaintF extRegion extMask
        writeRect image veo_pos.x veo_pos.y veo_pos.width veo_pos.height
          (fun i j c => toUint8 (inpainted.px (my + i) (mx + j) c))
    else
      writeRect image veo_pos.x veo_pos.y veo_pos.width veo_pos.height
        (fun i j c => toUint8 (veoStaticResult image veo_pos i j c))

/-- Modelled from the spec (section 4.5, the seam guard, which has no
counterpart in the source): the mean brightness of the leftmost 5 columns of
the source crop. -/
def seamSourceMean (image : Frame) (pos : VeoWatermarkPosition) : ℚ :=
  listMean ((cells pos.height.toNat 5).map fun p =>
    grayOf (veoSource image pos) p.1 p.2)

/-- Modelled from the spec (section 4.5, the seam guard, which has no
counterpart in the source): the mean brightness of the 5 columns immediately
to the left of the target region. -/
def seamContextMean (image : Frame) (pos : VeoWatermarkPosition) : ℚ :=
  listMean ((cells pos.height.toNat 5).map fun p =>
    grayOf (fun i j c => image.px (pos.y.toNat + i) (pos.x.toNat - 5 + j) c) p.1 p.2)

/-- A dense optical flow field (`H, W, 2`): per cell a `(dx, dy)` vector. -/
structure FlowField where
  h : ℕ
  w : ℕ
  vec : ℕ → ℕ → ℚ × ℚ

/-- Per-pixel flow magnitude `np.sqrt(flow[..,0] ** 2 + flow[..,1] ** 2)`,
`core/temporal.py` lines 69 and 277. -/
noncomputable def flowMagnitude (d : ℚ × ℚ) : ℝ :=
  Real.sqrt ((d.1 : ℝ) ^ 2 + (d.2 : ℝ) ^ 2)

/-- `avg_magnitude = np.mean(magnitude)` over a flow field. -/
noncomputable def meanFlowMagnitude (f : FlowField) : ℝ :=
  listMeanR ((cells f.h f.w).map fun p => flowMagnitude (f.vec p.1 p.2))

/-- `max_magnitude = np.max(magnitude)` over a flow field (`0` on an empty
field, which the callers never produce). -/
noncomputable def maxFlowMagnitude (f : FlowField) : ℝ :=
  ((cells f.h f.w).map fun p => flowMagnitude (f.vec p.1 p.2)).foldr max 0

/-- `detect_scene_cut` from `core/temporal.py` (lines 53-73): scene cut when
the mean flow magnitude exceeds the threshold or any single magnitude exceeds
`FLOW_MAGNITUDE_THRESHOLD`. -/
def detect_scene_cut (f : FlowField) (threshold : ℝ) : Prop :=
  meanFlowMagnitude f > threshold ∨ maxFlowMagnitude f > FLOW_MAGNITUDE_THRESHOLD

noncomputable instance detectSceneCutDecidable (f : FlowField) (t : ℝ) :
    Decidable (detect_scene_cut f t) := Classical.propDecidable _

noncomputable instance realGtDecidable (a b : ℝ) : Decidable (a > b) :=
  Classical.propDecidable _

/-- `flow[y:y+h, x:x+w]`: the flow sub-field over a watermark region. -/
def subFlow (f : FlowField) (x y w h : ℤ) : FlowField :=
  ⟨h.toNat, w.toNat, fun i j => f.vec (y.toNat + i) (x.toNat + j)⟩

/-- `warp_region` from `core/temporal.py` (lines 76-110): builds the sampling
maps `x + dx`, `y + dy` and delegates the bilinear resampling to
`cv2.remap`, which is the external parameter `remapF`. -/
def warp_region (remapF : Frame → (ℕ → ℕ → ℚ) → (ℕ → ℕ → ℚ) → Frame)
    (region : Frame) (flow_region : FlowField) : Frame :=
  remapF region (fun i j => (j : ℚ) + (flow_region.vec i j).1)
    (fun i j => (i : ℚ) + (flow_region.vec i j).2)

/-- `blend_with_temporal` from `core/temporal.py` (lines 113-129):
`alpha * current + (1 - alpha) * warped_previous`. -/
def blend_with_temporal (current warped alpha : ℚ) : ℚ :=
  alpha * current + (1 - alpha) * warped

/-- `clamp_changes` from `core/temporal.py` (lines 132-153): clamp the delta
to `±max_change`, add it back to the previous value, clip to `[0, 255]` and
convert to `uint8`. -/
def clamp_changes (current previous max_change : ℚ) : ℚ :=
  toUint8 (previous + max (-max_change) (min max_change (current - previous)))

/-- The constructor-time configuration of `TemporalProcessor`
(`core/temporal.py` lines 164-183). -/
structure TPConfig where
  geminiPos : WatermarkPosition
  veoPos : VeoWatermarkPosition
  blendAlpha : ℚ
  clampThreshold : ℚ

/-- The mutable state of `TemporalProcessor` (`core/temporal.py` lines
185-189): previous grayscale frame, previous per-region crops, frame count. -/
structure TPState where
  prevGray : Option GrayFrame
  prevGemini : Option Frame
  prevVeo : Option Frame
  frameCount : ℕ

/-- The state right after `TemporalProcessor.__init__`: all previous-frame
fields unset, frame count zero. -/
def initState : TPState := ⟨none, none, none, 0⟩

/-- `TemporalProcessor.reset` from `core/temporal.py` (lines 327-332). -/
def resetState (_s : TPState) : TPState := ⟨none, none, none, 0⟩

/-- Python slice crop `result[y:y+height, x:x+width]` for `0 ≤ x, y` (slice
ends are clamped to the frame bounds). -/
def cropFrame (f : Frame) (x y width height : ℤ) : Frame :=
  ⟨min f.h (y + height).toNat - y.toNat, min f.w (x + width).toNat - x.toNat,
    fun i j c => f.px (y.toNat + i) (x.toNat + j) c⟩

/-- `TemporalProcessor._update_state` from `core/temporal.py` (lines 298-325):
always stores the current grayscale; stores each region crop only when that
region's top-left corner lies inside the frame, and otherwise sets it to
`None`. -/
def updateState (cfg : TPConfig) (curr_gray : GrayFrame) (result : Frame)
    (s : TPState) : TPState :=
  { prevGray := some curr_gray
    prevGemini :=
      if 0 ≤ cfg.geminiPos.x ∧ cfg.geminiPos.x < (result.w : ℤ) ∧
          0 ≤ cfg.geminiPos.y ∧ cfg.geminiPos.y < (result.h : ℤ) then
        some (cropFrame result cfg.geminiPos.x cfg.geminiPos.y cfg.geminiPos.width
          cfg.geminiPos.height)
      else none
    prevVeo :=
      if 0 ≤ cfg.veoPos.x ∧ cfg.veoPos.x < (result.w : ℤ) ∧
          0 ≤ cfg.veoPos.y ∧ cfg.veoPos.y < (result.h : ℤ) then
        some (cropFrame result cfg.veoPos.x cfg.veoPos.y cfg.veoPos.width
          cfg.veoPos.height)
      else none
    frameCount := s.frameCount }

/-- `TemporalProcessor._process_region` from `core/temporal.py` (lines
254-296): skip when there is no previous crop, when the region is out of
bounds, or when the local mean flow magnitude exceeds the scene-cut
threshold; otherwise warp the previous crop (via the external `remapF`),
blend, clamp the per-pixel change and write the region back. -/
noncomputable def processRegion (remapF : Frame → (ℕ → ℕ → ℚ) → (ℕ → ℕ → ℚ) → Frame)
    (result : Frame) (flow : FlowField) (x y w h : ℤ) (prev_region : Option Frame)
    (blend_alpha clamp_threshold : ℚ) : Frame :=
  match prev_region with
  | none => result
  | some prev =>
    if x < 0 ∨ y < 0 ∨ x + w > (result.w : ℤ) ∨ y + h > (result.h : ℤ) then result
    else
      let flow_region := subFlow flow x y w h
      if meanFlowMagnitude flow_region > SCENE_CUT_THRESHOLD then result
      else
        let warped := warp_region remapF prev flow_region
        let current : ℕ → ℕ → ℕ → ℚ := fun i j c => result.px (y.toNat + i) (x.toNat + j) c
        writeRect result x y w h (fun i j c =>
          clamp_changes (blend_with_temporal (current i j c) (warped.px i j c) blend_alpha)
            (warped.px i j c) clamp_threshold)

/-- Lines 225-247 of `core/temporal.py`: `result = current_result.copy()`
(copying is the identity in this functional model) followed by the two
`_process_region` calls for the Gemini and then the Veo region. -/
noncomputable def smoothedResult (remapF : Frame → (ℕ → ℕ → ℚ) → (ℕ → ℕ → ℚ) → Frame)
    (cfg : TPConfig) (prev_gemini prev_veo : Option Frame) (flow : FlowField)
    (candidate_result : Frame) : Frame :=
  let r1 := processRegion remapF candidate_result flow cfg.geminiPos.x cfg.geminiPos.y
    cfg.geminiPos.width cfg.geminiPos.height prev_gemini cfg.blendAlpha cfg.clampThreshold
  processRegion remapF r1 flow cfg.veoPos.x cfg.veoPos.y
    cfg.veoPos.width cfg.veoPos.height prev_veo cfg.blendAlpha cfg.clampThreshold

/-- `TemporalProcessor.process_frame` from `core/temporal.py` (lines 191-252).
The external grayscale conversion (`cv2.cvtColor`) and Farneback optical flow
(`cv2.calcOpticalFlowFarneback`) are the parameters `cvtGray` and `flowF`;
the bilinear remap used inside region warping is `remapF`.  Returns the
result frame together with the updated processor state. -/
noncomputable def process_frame (cvtGray : Frame → GrayFrame)
    (flowF : GrayFrame → GrayFrame → FlowField)
    (remapF : Frame → (ℕ → ℕ → ℚ) → (ℕ → ℕ → ℚ) → Frame)
    (cfg : TPConfig) (s : TPState) (original_frame candidate_result : Frame) :
    Frame × TPState :=
  let s1 : TPState := { s with frameCount := s.frameCount + 1 }
  let curr_gray := cvtGray original_frame
  match s.prevGray with
  | none => (candidate_result, updateState cfg curr_gray candidate_result s1)
  | some prev_gray =>
    let flow := flowF prev_gray curr_gray
    if detect_scene_cut flow SCENE_CUT_THRESHOLD then
      (candidate_result, updateState cfg curr_gray candidate_result s1)
    else
      let r2 := smoothedResult remapF cfg s.prevGemini s.prevVeo flow candidate_result
      (r2, updateState cfg curr_gray r2 s1)

/-- Concrete 1 × 3 region used to exercise the presence detector: cell 0 has
brightness 100 on every channel, cells 1 and 2 have brightness 0. -/
def regionEx : ℕ → ℕ → ℕ → ℚ := fun _ j _ => if j = 0 then 100 else 0

/-- Concrete 1 × 3 alpha map: opacities 0.5, 0.1, 0. -/
def alphaEx : ℕ → ℕ → ℚ := fun _ j => if j = 0 then 1/2 else if j = 1 then 1/10 else 0

/-- Concrete 10 × 12 frame for the Veo remover: the strip above the region
(rows 0-4, columns 5-10) has brightness 140, the five columns of context to
the left of the region (rows 5-9, columns 0-4) have brightness 0, and
everything else (the target region included) has brightness 100. -/
def imgC2 : Frame :=
  ⟨10, 12, fun i j _ => if i < 5 ∧ 5 ≤ j ∧ j < 11 then 140
    else if 5 ≤ i ∧ j < 5 then 0 else 100⟩

/-- Concrete overlay-type region for `imgC2`: a 6 × 5 box at (5, 5). -/
def posC2 : VeoWatermarkPosition := ⟨5, 5, 6, 5⟩

/-- A concrete stand-in for the external `cv2.inpaint` (its value is
irrelevant to the claims it is used for). -/
def inpaint0 : Frame → (ℕ → ℕ → ℕ) → Frame := fun f _ => f

/-- A concrete stand-in for the external grayscale conversion. -/
def cvt0 : Frame → GrayFrame := fun f => ⟨f.h, f.w, fun _ _ => 0⟩

/-- A 1 × 1 flow field with the single vector (101, 0): its magnitude 101
exceeds `FLOW_MAGNITUDE_THRESHOLD = 100`. -/
def flowCut : FlowField := ⟨1, 1, fun _ _ => (101, 0)⟩

/-- A concrete stand-in for the external Farneback flow, returning `flowCut`. -/
def flowF0 : GrayFrame → GrayFrame → FlowField := fun _ _ => flowCut

/-- A concrete stand-in for the external bilinear remap. -/
def remapF0 : Frame → (ℕ → ℕ → ℚ) → (ℕ → ℕ → ℚ) → Frame := fun r _ _ => r

/-- A processor configuration whose blend-type region sits at x = 100, beyond
the width of a 10 × 10 frame. -/
def cfgOut : TPConfig := ⟨⟨100, 0, 48, 48, 48⟩, ⟨0, 0, 100, 45⟩, 7/10, 50⟩

/-- An all-black 10 × 10 frame. -/
def frame10 : Frame := ⟨10, 10, fun _ _ _ => 0⟩

/-- A processor configuration with both regions at the origin of a small
frame. -/
def cfg0 : TPConfig := ⟨⟨0, 0, 48, 48, 48⟩, ⟨0, 0, 100, 45⟩, 7/10, 50⟩

/-- A tracking-state processor state (previous grayscale present). -/
def sTrack : TPState := ⟨some ⟨1, 1, fun _ _ => 0⟩, none, none, 1⟩

theorem writeRect_outside (image : Frame) (x y w h : ℤ) (vals : ℕ → ℕ → ℕ → ℚ)
    (i j c : ℕ)
    (hout : ¬(y ≤ (i : ℤ) ∧ (i : ℤ) < y + h ∧ x ≤ (j : ℤ) ∧ (j : ℤ) < x + w)) :
    (writeRect image x y w h vals).px i j c = image.px i j c := by
  simp only [writeRect]
  exact if_neg hout

theorem writeRectRGB_outside (image : Frame) (x y w h : ℤ) (vals : ℕ → ℕ → ℕ → ℚ)
    (i j c : ℕ)
    (hout : ¬(y ≤ (i : ℤ) ∧ (i : ℤ) < y + h ∧ x ≤ (j : ℤ) ∧ (j : ℤ) < x + w ∧ c < 3)) :
    (writeRectRGB image x y w h vals).px i j c = image.px i j c := by
  simp only [writeRectRGB]
  exact if_neg hout

/-- C7: for every width and height, `calculate_watermark_position` returns the
blend-type region with `isLarge = (width > 1024 or height > 1024)`,
`size = 96 / 48`, `margin = 64 / 32`, `x = width - margin - size`,
`y = height - margin - size`; `(1024, 1024)` selects the small values and
`(1025, 1024)` the large ones (the boundary is exclusive on the large side). -/
theorem C7_blend_position (w h : ℤ) :
    ((calculate_watermark_position w h).size = if w > 1024 ∨ h > 1024 then 96 else 48) ∧
    (calculate_watermark_position w h).width = (calculate_watermark_position w h).size ∧
    (calculate_watermark_position w h).height = (calculate_watermark_position w h).size ∧
    ((calculate_watermark_position w h).x =
      w - (if w > 1024 ∨ h > 1024 then 64 else 32) -
        (if w > 1024 ∨ h > 1024 then 96 else 48)) ∧
    ((calculate_watermark_position w h).y =
      h - (if w > 1024 ∨ h > 1024 then 64 else 32) -
        (if w > 1024 ∨ h > 1024 then 96 else 48)) ∧
    (calculate_watermark_position 1024 1024).size = 48 ∧
    (calculate_watermark_position 1024 1024).x = 1024 - 32 - 48 ∧
    (calculate_watermark_position 1025 1024).size = 96 ∧
    (calculate_watermark_position 1025 1024).x = 1025 - 64 - 96 := by
  refine ⟨?_, ?_, ?_, ?_, ?_, by decide, by decide, by decide, by decide⟩ <;>
    by_cases hc : w > 1024 ∨ h > 1024 <;>
      simp [calculate_watermark_position, LARGE_IMAGE_THRESHOLD, LARGE_MARGIN,
        LARGE_WATERMARK_SIZE, SMALL_MARGIN, SMALL_WATERMARK_SIZE, hc]

/-- C8 counterexample: at `(620, 1000)` the code truncates `620 × 0.025 = 15.5`
to a margin of 15 and returns `x = 505`, while the claim's `round` gives
margin 16 and `x = 620 - 16 - 100 = 504`; and at `(50, 50)` the returned `x`
is `-50`, contradicting the claim that the coordinates are never negative. -/
theorem C8_counterexample :
    (calculate_veo_watermark_position 620 1000).x = 505 ∧
    (505 : ℤ) ≠ 620 - 16 - 100 ∧
    (calculate_veo_watermark_position 50 50).x = -50 ∧
    ¬ 0 ≤ (calculate_veo_watermark_position 50 50).x := by
  have h620 : ⌊(620 : ℚ) * (25/1000)⌋ = 15 := by norm_num
  have h50x : ⌊(50 : ℚ) * (25/1000)⌋ = 1 := by norm_num
  have h50y : ⌊(50 : ℚ) * (15/1000)⌋ = 0 := by norm_num
  have hA : (calculate_veo_watermark_position 620 1000).x = 505 := by
    show (if max 0 (620 - max 15 ⌊(620 : ℚ) * (25/1000)⌋ - 100) + 100 > 620 then
        (620 : ℤ) - 100
      else max 0 (620 - max 15 ⌊(620 : ℚ) * (25/1000)⌋ - 100)) = 505
    rw [h620]
    norm_num
  have hB : (calculate_veo_watermark_position 50 50).x = -50 := by
    show (if max 0 (50 - max 15 ⌊(50 : ℚ) * (25/1000)⌋ - 100) + 100 > 50 then
        (50 : ℤ) - 100
      else max 0 (50 - max 15 ⌊(50 : ℚ) * (25/1000)⌋ - 100)) = -50
    rw [h50x]
    norm_num
  exact ⟨hA, by norm_num, hB, by rw [hB]; norm_num⟩

/-- C8 (amended): the overlay-type region has `marginX = max(15,
floor(width × 0.025))` and `marginY = max(15, floor(height × 0.015))`
(truncation, not rounding); `x = max(0, width - marginX - 100)` is computed
first and the clamp `x = width - 100` is applied afterwards whenever
`x + 100 > width`, so the result can be negative when `width < 100`
(similarly for `y` with height 45); whenever the frame fits the nominal box,
the coordinates are nonnegative and the box stays inside the frame. -/
theorem C8_veo_position (w h : ℤ) :
    (calculate_veo_watermark_position w h).width = 100 ∧
    (calculate_veo_watermark_position w h).height = 45 ∧
    ((calculate_veo_watermark_position w h).x =
      if max 0 (w - max 15 ⌊(w : ℚ) * (25/1000)⌋ - 100) + 100 > w then w - 100
      else max 0 (w - max 15 ⌊(w : ℚ) * (25/1000)⌋ - 100)) ∧
    ((calculate_veo_watermark_position w h).y =
      if max 0 (h - max 15 ⌊(h : ℚ) * (15/1000)⌋ - 45) + 45 > h then h - 45
      else max 0 (h - max 15 ⌊(h : ℚ) * (15/1000)⌋ - 45)) ∧
    (w < 100 ∨ 0 ≤ (calculate_veo_watermark_position w h).x) ∧
    (h < 45 ∨ 0 ≤ (calculate_veo_watermark_position w h).y) ∧
    (w < 100 ∨ (calculate_veo_watermark_position w h).x + 100 ≤ w) ∧
    (h < 45 ∨ (calculate_veo_watermark_position w h).y + 45 ≤ h) := by
  have hx : (calculate_veo_watermark_position w h).x =
      if max 0 (w - max 15 ⌊(w : ℚ) * (25/1000)⌋ - 100) + 100 > w then w - 100
      else max 0 (w - max 15 ⌊(w : ℚ) * (25/1000)⌋ - 100) := rfl
  have hy : (calculate_veo_watermark_position w h).y =
      if max 0 (h - max 15 ⌊(h : ℚ) * (15/1000)⌋ - 45) + 45 > h then h - 45
      else max 0 (h - max 15 ⌊(h : ℚ) * (15/1000)⌋ - 45) := rfl
  refine ⟨rfl, rfl, hx, hy, ?_, ?_, ?_, ?_⟩
  · rw [hx]
    generalize ⌊(w : ℚ) * (25/1000)⌋ = mw
    rcases lt_or_le w 100 with hw | hw
    · exact Or.inl hw
    · refine Or.inr ?_
      split_ifs with hcl
      · omega
      · exact le_max_left 0 _
  · rw [hy]
    generalize ⌊(h : ℚ) * (15/1000)⌋ = mh
    rcases lt_or_le h 45 with hh | hh
    · exact Or.inl hh
    · refine Or.inr ?_
      split_ifs with hcl
      · omega
      · exact le_max_left 0 _
  · rw [hx]
    generalize ⌊(w : ℚ) * (25/1000)⌋ = mw
    rcases lt_or_le w 100 with hw | hw
    · exact Or.inl hw
    · refine Or.inr ?_
      split_ifs with hcl
      · omega
      · omega
  · rw [hy]
    generalize ⌊(h : ℚ) * (15/1000)⌋ = mh
    rcases lt_or_le h 45 with hh | hh
    · exact Or.inl hh
    · refine Or.inr ?_
      split_ifs with hcl
      · omega
      · omega

/-- C1: for every opacity `α ∈ [0, 0.99]` and every 8-bit value `o ∈ [0, 255]`,
composing the forward formula `w = o(1-α) + 255α` with the inverse used by
`remove_watermark` (with the final clamp to `[0, 255]` and integer
conversion) recovers `o` exactly, hence within a rounding error of at most 1. -/
theorem C1_round_trip (alpha : ℚ) (o : ℕ) (h0 : 0 ≤ alpha) (h1 : alpha ≤ MAX_ALPHA)
    (ho : o ≤ 255) :
    toUint8 (inverseBlendValue (forwardBlendValue (o : ℚ) alpha) alpha) = (o : ℚ) ∧
    |toUint8 (inverseBlendValue (forwardBlendValue (o : ℚ) alpha) alpha) - (o : ℚ)| ≤ 1 := by
  have h99 : alpha ≤ 99/100 := by simpa [MAX_ALPHA] using h1
  have hpos : 0 < 1 - alpha := by linarith
  have key : inverseBlendValue (forwardBlendValue (o : ℚ) alpha) alpha = (o : ℚ) := by
    unfold inverseBlendValue forwardBlendValue LOGO_VALUE
    field_simp
    ring
  have hto : toUint8 (o : ℚ) = (o : ℚ) := by
    unfold toUint8 clipTo255
    rw [min_eq_right (by exact_mod_cast ho), max_eq_right (Nat.cast_nonneg o)]
    simp
  refine ⟨by rw [key, hto], by rw [key, hto]; simp⟩

theorem C1_round_trip_witness :
    toUint8 (inverseBlendValue (forwardBlendValue ((100 : ℕ) : ℚ) (1/2)) (1/2)) =
      ((100 : ℕ) : ℚ) ∧
    |toUint8 (inverseBlendValue (forwardBlendValue ((100 : ℕ) : ℚ) (1/2)) (1/2)) -
      ((100 : ℕ) : ℚ)| ≤ 1 :=
  C1_round_trip (1/2) 100 (by norm_num) (by norm_num [MAX_ALPHA]) (by norm_num)

theorem cellsOneThree : cells 1 3 = [(0, 0), (0, 1), (0, 2)] := rfl

theorem highCellsEx : highCells alphaEx 1 3 = [(0, 0), (0, 1)] := by
  simp only [highCells, cellsOneThree, List.filter, alphaEx]
  norm_num

theorem lowCellsEx : lowCells alphaEx 1 3 = [(0, 2)] := by
  simp only [lowCells, cellsOneThree, List.filter, alphaEx]
  norm_num

theorem veryHighCellsEx : veryHighCells alphaEx 1 3 = [(0, 0)] := by
  simp only [veryHighCells, cellsOneThree, List.filter, alphaEx]
  norm_num

theorem brightnessDiffEx : brightnessDiff regionEx alphaEx 1 3 = 50 := by
  rw [brightnessDiff, highCellsEx, lowCellsEx]
  simp only [meanGrayOver, listMean, grayOf, regionEx, List.map]
  norm_num

theorem meanAlphaHighEx : meanAlphaOver alphaEx (highCells alphaEx 1 3) = 3/10 := by
  rw [highCellsEx]
  simp only [meanAlphaOver, listMean, alphaEx, List.map]
  norm_num

theorem expectedDiffEx : expectedDiff alphaEx 1 3 = 153/4 := by
  rw [expectedDiff, meanAlphaHighEx, LOGO_VALUE]
  norm_num

theorem meanGrayVeryHighEx : meanGrayOver regionEx (veryHighCells alphaEx 1 3) = 100 := by
  rw [veryHighCellsEx]
  simp only [meanGrayOver, listMean, grayOf, regionEx, List.map]
  norm_num

theorem expectedVeryHighBrightnessEx :
    expectedVeryHighBrightness regionEx alphaEx 1 3 = 255/2 := by
  rw [expectedVeryHighBrightness, veryHighCellsEx, lowCellsEx]
  simp only [meanGrayOver, meanAlphaOver, listMean, grayOf, regionEx, alphaEx,
    List.map, LOGO_VALUE]
  norm_num

theorem detectEx : detect_gemini_watermark regionEx alphaEx 1 3 = true := by
  rw [detect_gemini_watermark, brightnessDiffEx, expectedDiffEx, meanGrayVeryHighEx,
    expectedVeryHighBrightnessEx, highCellsEx, lowCellsEx, veryHighCellsEx]
  norm_num

/-- C3 counterexample: on the concrete 1 × 3 region/alpha pair the detector
reports present, yet the brightness difference (50) is strictly below the
claim's bound `meanOpacityOfHighSet × 255 × 0.7 = 53.55` — the code's factor
is 0.5, not the 0.7 stated by the claim. -/
theorem C3_counterexample :
    detect_gemini_watermark regionEx alphaEx 1 3 = true ∧
    brightnessDiff regionEx alphaEx 1 3 <
      meanAlphaOver alphaEx (highCells alphaEx 1 3) * 255 * (7/10) := by
  refine ⟨detectEx, ?_⟩
  rw [brightnessDiffEx, meanAlphaHighEx]
  norm_num

/-- C3 (amended): whenever `detect_gemini_watermark` reports present, the
brightness difference between high-opacity and low-opacity pixels is at least
`meanOpacityOfHighSet × 255 × 0.5` (the code's factor is 0.5, not 0.7), and
any region whose difference is below that bound is reported not present. -/
theorem C3_expected_diff_half (region : ℕ → ℕ → ℕ → ℚ) (alpha_map : ℕ → ℕ → ℚ)
    (h w : ℕ) (hd : detect_gemini_watermark region alpha_map h w = true) :
    expectedDiff alpha_map h w ≤ brightnessDiff region alpha_map h w := by
  by_contra hlt
  push_neg at hlt
  unfold detect_gemini_watermark at hd
  by_cases hA : ((highCells alpha_map h w).isEmpty || (lowCells alpha_map h w).isEmpty) = true
  · rw [if_pos hA] at hd
    exact Bool.false_ne_true hd
  · rw [if_neg hA, if_pos hlt] at hd
    exact Bool.false_ne_true hd

theorem C3_expected_diff_half_witness :
    expectedDiff alphaEx 1 3 ≤ brightnessDiff regionEx alphaEx 1 3 :=
  C3_expected_diff_half regionEx alphaEx 1 3 detectEx

/-- C4 counterexample: on the concrete 1 × 3 region/alpha pair the set of
cells with opacity ≥ 0.5 is non-empty and the mean brightness of their pixels
is 100 < 220, yet the detector reports present — the code checks against
`0.7 × (meanLow(1 - meanVH) + 255·meanVH)`, not against a flat 220. -/
theorem C4_counterexample :
    detect_gemini_watermark regionEx alphaEx 1 3 = true ∧
    (veryHighCells alphaEx 1 3).isEmpty = false ∧
    meanGrayOver regionEx (veryHighCells alphaEx 1 3) < 220 := by
  refine ⟨detectEx, by rw [veryHighCellsEx]; rfl, ?_⟩
  rw [meanGrayVeryHighEx]
  norm_num

/-- C4 (amended): when the set of cells with opacity ≥ 0.5 is non-empty,
`detect_gemini_watermark` reports present only if the mean brightness of
their pixels is at least `0.7 × (meanLowBrightness × (1 - meanVeryHighAlpha)
+ 255 × meanVeryHighAlpha)` — the expected blended brightness with a 30%
tolerance, not the flat near-white floor of 220 stated by the claim. -/
theorem C4_very_high_brightness (region : ℕ → ℕ → ℕ → ℚ) (alpha_map : ℕ → ℕ → ℚ)
    (h w : ℕ) (hd : detect_gemini_watermark region alpha_map h w = true)
    (hvh : (veryHighCells alpha_map h w).isEmpty = false) :
    expectedVeryHighBrightness region alpha_map h w * (7/10) ≤
      meanGrayOver region (veryHighCells alpha_map h w) := by
  by_contra hlt
  push_neg at hlt
  unfold detect_gemini_watermark at hd
  by_cases hA : ((highCells alpha_map h w).isEmpty || (lowCells alpha_map h w).isEmpty) = true
  · rw [if_pos hA] at hd
    exact Bool.false_ne_true hd
  · rw [if_neg hA] at hd
    by_cases hB : brightnessDiff region alpha_map h w < expectedDiff alpha_map h w
    · rw [if_pos hB] at hd
      exact Bool.false_ne_true hd
    · rw [if_neg hB, if_neg (by simp [hvh]), if_pos hlt] at hd
      exact Bool.false_ne_true hd

theorem C4_very_high_brightness_witness :
    expectedVeryHighBrightness regionEx alphaEx 1 3 * (7/10) ≤
      meanGrayOver regionEx (veryHighCells alphaEx 1 3) :=
  C4_very_high_brightness regionEx alphaEx 1 3 detectEx (by rw [veryHighCellsEx]; rfl)

theorem cells_mem_bounds {p : ℕ × ℕ} {h w : ℕ} (hp : p ∈ cells h w) :
    p.1 < h ∧ p.2 < w := by
  simp only [cells, List.mem_flatMap, List.mem_map, List.mem_range] at hp
  obtain ⟨i, hi, j, hj, rfl⟩ := hp
  exact ⟨hi, hj⟩

theorem sortedInsert_replicate (q : ℚ) (n : ℕ) :
    sortedInsert q (List.replicate n q) = List.replicate (n + 1) q := by
  cases n with
  | zero => rfl
  | succ m =>
    simp only [List.replicate_succ, sortedInsert, if_pos le_rfl]

theorem sortAsc_replicate (q : ℚ) (n : ℕ) :
    sortAsc (List.replicate n q) = List.replicate n q := by
  induction n with
  | zero => rfl
  | succ m ih =>
    rw [List.replicate_succ]
    show sortedInsert q (sortAsc (List.replicate m q)) = _
    rw [ih, sortedInsert_replicate]
    simp [List.replicate_succ]

theorem listMean_replicate (n : ℕ) (q : ℚ) (hn : n ≠ 0) :
    listMean (List.replicate n q) = q := by
  have hn' : ((n : ℚ)) ≠ 0 := Nat.cast_ne_zero.mpr hn
  simp only [listMean, List.sum_replicate, List.length_replicate, nsmul_eq_mul]
  field_simp

theorem percentile30_replicate30 : percentile30 (List.replicate 30 (100 : ℚ)) = 100 := by
  have hs : sortAsc (List.replicate 30 (100 : ℚ)) = List.replicate 30 (100 : ℚ) :=
    sortAsc_replicate 100 30
  simp only [percentile30, hs, List.length_replicate]
  have hk : ⌊(((30 : ℕ) : ℚ) - 1) * (30/100)⌋ = 8 := by norm_num
  rw [hk]
  have hg8 : (List.replicate 30 (100 : ℚ)).getD (8 : ℤ).toNat 0 = 100 := rfl
  have hg9 : (List.replicate 30 (100 : ℚ)).getD ((8 : ℤ).toNat + 1) (100 : ℚ) = 100 := rfl
  rw [hg8, hg9]
  norm_num

theorem veoTargetEx (i j c : ℕ) : veoTarget imgC2 posC2 i j c = 100 := by
  show (if 5 + i < 5 ∧ 5 ≤ 5 + j ∧ 5 + j < 11 then (140 : ℚ)
    else if 5 ≤ 5 + i ∧ 5 + j < 5 then 0 else 100) = 100
  rw [if_neg (by omega), if_neg (by omega)]

theorem veoSourceEx (i j c : ℕ) (hi : i < 5) (hj : j < 6) :
    veoSource imgC2 posC2 i j c = 140 := by
  show (if 0 + i < 5 ∧ 5 ≤ 5 + j ∧ 5 + j < 11 then (140 : ℚ)
    else if 5 ≤ 0 + i ∧ 5 + j < 5 then 0 else 100) = 140
  rw [if_pos (by omega)]

theorem grayTargetEx (i j : ℕ) : grayOf (veoTarget imgC2 posC2) i j = 100 := by
  simp only [grayOf, veoTargetEx]
  norm_num

theorem graySourceEx (i j : ℕ) (hi : i < 5) (hj : j < 6) :
    grayOf (veoSource imgC2 posC2) i j = 140 := by
  simp only [grayOf, veoSourceEx i j _ hi hj]
  norm_num

theorem veoBackgroundLevelEx : veoBackgroundLevel imgC2 posC2 = 100 := by
  rw [veoBackgroundLevel]
  have hmap : (cells posC2.height.toNat posC2.width.toNat).map
      (fun p => grayOf (veoTarget imgC2 posC2) p.1 p.2) = List.replicate 30 (100 : ℚ) := by
    rw [List.map_congr_left (fun p _ => grayTargetEx p.1 p.2)]
    rfl
  rw [hmap, percentile30_replicate30]

theorem veoSourceMeanEx : veoSourceMean imgC2 posC2 = 140 := by
  show listMean ((cells 5 6).map fun p => grayOf (veoSource imgC2 posC2) p.1 p.2) = 140
  have hmap : (cells 5 6).map
      (fun p => grayOf (veoSource imgC2 posC2) p.1 p.2) = List.replicate 30 (140 : ℚ) := by
    rw [List.map_congr_left fun p hp =>
      graySourceEx p.1 p.2 (cells_mem_bounds hp).1 (cells_mem_bounds hp).2]
    rfl
  rw [hmap, listMean_replicate 30 140 (by norm_num)]

theorem notDynamicEx : ¬ veoIsDynamic imgC2 posC2 := by
  rw [veoIsDynamic, veoBackgroundLevelEx, veoSourceMeanEx]
  norm_num

theorem seamSourceMeanEx : seamSourceMean imgC2 posC2 = 140 := by
  show listMean ((cells 5 5).map fun p => grayOf (veoSource imgC2 posC2) p.1 p.2) = 140
  have hmap : (cells 5 5).map
      (fun p => grayOf (veoSource imgC2 posC2) p.1 p.2) = List.replicate 25 (140 : ℚ) := by
    rw [List.map_congr_left fun p hp =>
      graySourceEx p.1 p.2 (cells_mem_bounds hp).1 (by
        have := (cells_mem_bounds hp).2; omega)]
    rfl
  rw [hmap, listMean_replicate 25 140 (by norm_num)]

theorem grayContextEx (i j : ℕ) (hj : j < 5) :
    grayOf (fun i2 j2 c => imgC2.px (posC2.y.toNat + i2) (posC2.x.toNat - 5 + j2) c)
      i j = 0 := by
  have hpx : ∀ c : ℕ, imgC2.px (posC2.y.toNat + i) (posC2.x.toNat - 5 + j) c = 0 := by
    intro c
    show (if 5 + i < 5 ∧ 5 ≤ 0 + j ∧ 0 + j < 11 then (140 : ℚ)
      else if 5 ≤ 5 + i ∧ 0 + j < 5 then 0 else 100) = 0
    rw [if_neg (by omega), if_pos (by omega)]
  show (imgC2.px (posC2.y.toNat + i) (posC2.x.toNat - 5 + j) 0 +
      imgC2.px (posC2.y.toNat + i) (posC2.x.toNat - 5 + j) 1 +
      imgC2.px (posC2.y.toNat + i) (posC2.x.toNat - 5 + j) 2) / 3 = 0
  rw [hpx 0, hpx 1, hpx 2]
  norm_num

theorem seamContextMeanEx : seamContextMean imgC2 posC2 = 0 := by
  show listMean ((cells 5 5).map fun p =>
    grayOf (fun i j c => imgC2.px (posC2.y.toNat + i) (posC2.x.toNat - 5 + j) c)
      p.1 p.2) = 0
  have hmap : (cells 5 5).map
      (fun p => grayOf
        (fun i j c => imgC2.px (posC2.y.toNat + i) (posC2.x.toNat - 5 + j) c)
        p.1 p.2) = List.replicate 25 (0 : ℚ) := by
    rw [List.map_congr_left fun p hp =>
      grayContextEx p.1 p.2 (cells_mem_bounds hp).2]
    rfl
  rw [hmap, listMean_replicate 25 0 (by norm_num)]

/-- C2 counterexample: on `imgC2`/`posC2` the static path is taken, at least
5 columns of context exist (`x = 5`), and the spec's seam-guard quantity
`|mean(left 5 source columns) - mean(5 columns left of the region)| = 140`
exceeds 7, so the claim requires the buffer to be returned unchanged — yet
the code commits the sampled strip: pixel (9, 10) changes from 100 to 132.
No seam guard exists in `remove_veo_watermark`. -/
theorem C2_counterexample :
    (5 : ℤ) ≤ posC2.x ∧
    7 < |seamSourceMean imgC2 posC2 - seamContextMean imgC2 posC2| ∧
    ¬ veoIsDynamic imgC2 posC2 ∧
    (remove_veo_watermark inpaint0 imgC2 posC2).px 9 10 0 = 132 ∧
    imgC2.px 9 10 0 = 100 := by
  refine ⟨by decide, ?_, notDynamicEx, ?_, by rfl⟩
  · rw [seamSourceMeanEx, seamContextMeanEx]
    norm_num
  · have hred : remove_veo_watermark inpaint0 imgC2 posC2 =
        writeRect imgC2 posC2.x posC2.y posC2.width posC2.height
          (fun i j c => toUint8 (veoStaticResult imgC2 posC2 i j c)) := by
      unfold remove_veo_watermark
      rw [if_neg (by decide), if_neg (by decide)]
      dsimp only
      rw [if_neg notDynamicEx]
    rw [hred]
    simp only [writeRect]
    rw [if_pos (by decide)]
    have hstat : veoStaticResult imgC2 posC2 (9 - (5 : ℤ).toNat) (10 - (5 : ℤ).toNat) 0 =
        132 := by
      show veoStaticResult imgC2 posC2 4 5 0 = 132
      simp only [veoStaticResult]
      rw [if_neg (by norm_num), if_pos (by norm_num)]
      rw [veoTargetEx, veoSourceEx 4 5 0 (by norm_num) (by norm_num)]
      norm_num
    show toUint8 (veoStaticResult imgC2 posC2 (9 - (5 : ℤ).toNat) (10 - (5 : ℤ).toNat) 0) =
      132
    rw [hstat, toUint8, clipTo255]
    norm_num

/-- C2 (amended): `remove_veo_watermark` has no seam guard: whenever the
static path is reached (region in bounds, enough rows above, background
classified static), the feathered source crop is committed unconditionally —
even when the spec's seam-guard quantity exceeds 7 and at least 5 columns of
context exist, the buffer is still written rather than returned unchanged. -/
theorem C2_static_commit (inpaintF : Frame → (ℕ → ℕ → ℕ) → Frame) (image : Frame)
    (pos : VeoWatermarkPosition)
    (hb : ¬(pos.x < 0 ∨ pos.y < 0 ∨ pos.x + pos.width > (image.w : ℤ) ∨
      pos.y + pos.height > (image.h : ℤ)))
    (hy : ¬ pos.y < pos.height)
    (hs : ¬ veoIsDynamic image pos)
    (hctx : 5 ≤ pos.x)
    (hseam : 7 < |seamSourceMean image pos - seamContextMean image pos|) :
    remove_veo_watermark inpaintF image pos =
      writeRect image pos.x pos.y pos.width pos.height
        (fun i j c => toUint8 (veoStaticResult image pos i j c)) := by
  unfold remove_veo_watermark
  rw [if_neg hb, if_neg hy]
  dsimp only
  rw [if_neg hs]

theorem C2_static_commit_witness :
    remove_veo_watermark inpaint0 imgC2 posC2 =
      writeRect imgC2 posC2.x posC2.y posC2.width posC2.height
        (fun i j c => toUint8 (veoStaticResult imgC2 posC2 i j c)) :=
  C2_static_commit inpaint0 imgC2 posC2 (by decide) (by decide) notDynamicEx (by decide)
    (by rw [seamSourceMeanEx, seamContextMeanEx]; norm_num)

/-- C9: `remove_veo_watermark` never writes outside the requested
`[x, x+w) × [y, y+h)` rectangle — on every execution path (out-of-bounds
skip, no-source skip, empty-mask skip, dynamic inpainting and static
sampling) every pixel outside that rectangle keeps its previous value. -/
theorem C9_writes_only_rect (inpaintF : Frame → (ℕ → ℕ → ℕ) → Frame) (image : Frame)
    (veo_pos : VeoWatermarkPosition) (i j c : ℕ)
    (hout : ¬(veo_pos.y ≤ (i : ℤ) ∧ (i : ℤ) < veo_pos.y + veo_pos.height ∧
      veo_pos.x ≤ (j : ℤ) ∧ (j : ℤ) < veo_pos.x + veo_pos.width)) :
    (remove_veo_watermark inpaintF image veo_pos).px i j c = image.px i j c := by
  unfold remove_veo_watermark
  dsimp only
  split_ifs <;> first
    | rfl
    | exact writeRect_outside _ _ _ _ _ _ _ _ _ hout

theorem C9_writes_only_rect_witness :
    (remove_veo_watermark inpaint0 imgC2 posC2).px 0 0 0 = imgC2.px 0 0 0 :=
  C9_writes_only_rect inpaint0 imgC2 posC2 0 0 0 (by decide)

/-- C10: `remove_watermark` leaves every pixel outside the region rectangle
unchanged, leaves any fourth (alpha) channel unchanged even inside the
rectangle, and on every exit path returns a buffer of the same shape with
only the region's RGB samples rewritten. -/
theorem C10_outside_unchanged (image : Frame) (alpha_map : ℕ → ℕ → ℚ)
    (pos : WatermarkPosition) (i j c : ℕ)
    (hout : ¬(pos.y ≤ (i : ℤ) ∧ (i : ℤ) < pos.y + pos.height ∧
      pos.x ≤ (j : ℤ) ∧ (j : ℤ) < pos.x + pos.width) ∨ 3 ≤ c) :
    (remove_watermark image alpha_map pos).px i j c = image.px i j c ∧
    (remove_watermark image alpha_map pos).h = image.h ∧
    (remove_watermark image alpha_map pos).w = image.w := by
  refine ⟨?_, ?_, ?_⟩
  · unfold remove_watermark
    dsimp only
    split_ifs
    · rfl
    · apply writeRectRGB_outside
      intro hcon
      rcases hout with hA | hB
      · exact hA ⟨hcon.1, hcon.2.1, hcon.2.2.1, hcon.2.2.2.1⟩
      · have := hcon.2.2.2.2
        omega
    · rfl
  · unfold remove_watermark
    dsimp only
    split_ifs <;> rfl
  · unfold remove_watermark
    dsimp only
    split_ifs <;> rfl

theorem C10_outside_unchanged_witness :
    (remove_watermark imgC2 alphaEx ⟨0, 0, 2, 2, 2⟩).px 9 0 0 = imgC2.px 9 0 0 ∧
    (remove_watermark imgC2 alphaEx ⟨0, 0, 2, 2, 2⟩).h = imgC2.h ∧
    (remove_watermark imgC2 alphaEx ⟨0, 0, 2, 2, 2⟩).w = imgC2.w :=
  C10_outside_unchanged imgC2 alphaEx ⟨0, 0, 2, 2, 2⟩ 9 0 0 (Or.inl (by decide))

/-- C5: in the tracking state, whenever the computed optical flow is
classified as a scene cut (mean magnitude above the threshold or any single
magnitude above the absolute ceiling), `process_frame` returns the candidate
result unchanged and replaces its stored baseline with the current frame's
grayscale and crops of the candidate, applying no smoothing. -/
theorem C5_scene_cut (cvtGray : Frame → GrayFrame)
    (flowF : GrayFrame → GrayFrame → FlowField)
    (remapF : Frame → (ℕ → ℕ → ℚ) → (ℕ → ℕ → ℚ) → Frame) (cfg : TPConfig)
    (s : TPState) (orig cand : Frame) (pg : GrayFrame)
    (hprev : s.prevGray = some pg)
    (hcut : detect_scene_cut (flowF pg (cvtGray orig)) SCENE_CUT_THRESHOLD) :
    process_frame cvtGray flowF remapF cfg s orig cand =
      (cand, updateState cfg (cvtGray orig) cand
        { s with frameCount := s.frameCount + 1 }) := by
  obtain ⟨pgOpt, pgem, pveo, fc⟩ := s
  cases pgOpt with
  | none => exact absurd hprev (by simp)
  | some pg2 =>
    have hpg : pg2 = pg := by
      have : some pg2 = some pg := hprev
      exact Option.some.inj this
    subst hpg
    unfold process_frame
    dsimp only
    rw [if_pos hcut]

theorem C5_scene_cut_witness :
    process_frame cvt0 flowF0 remapF0 cfg0 sTrack frame10 frame10 =
      (frame10, updateState cfg0 (cvt0 frame10) frame10
        { sTrack with frameCount := sTrack.frameCount + 1 }) := by
  refine C5_scene_cut cvt0 flowF0 remapF0 cfg0 sTrack frame10 frame10
    ⟨1, 1, fun _ _ => 0⟩ rfl ?_
  unfold detect_scene_cut
  refine Or.inr ?_
  have hmag : flowMagnitude ((101 : ℚ), (0 : ℚ)) = 101 := by
    rw [flowMagnitude]
    push_cast
    rw [show ((101 : ℝ) ^ 2 + 0 ^ 2) = 101 ^ 2 by ring]
    exact Real.sqrt_sq (by norm_num)
  have hmax : maxFlowMagnitude (flowF0 ⟨1, 1, fun _ _ => 0⟩ (cvt0 frame10)) =
      max (flowMagnitude ((101 : ℚ), (0 : ℚ))) 0 := rfl
  rw [hmax, hmag, FLOW_MAGNITUDE_THRESHOLD]
  rw [max_eq_left (by norm_num)]
  norm_num

theorem processRegion_dims (remapF : Frame → (ℕ → ℕ → ℚ) → (ℕ → ℕ → ℚ) → Frame)
    (result : Frame) (flow : FlowField) (x y w h : ℤ) (prevR : Option Frame)
    (ba ct : ℚ) :
    (processRegion remapF result flow x y w h prevR ba ct).h = result.h ∧
    (processRegion remapF result flow x y w h prevR ba ct).w = result.w := by
  unfold processRegion
  cases prevR with
  | none => exact ⟨rfl, rfl⟩
  | some prev =>
    dsimp only
    split_ifs <;> exact ⟨rfl, rfl⟩

theorem smoothedResult_dims (remapF : Frame → (ℕ → ℕ → ℚ) → (ℕ → ℕ → ℚ) → Frame)
    (cfg : TPConfig) (pgem pveo : Option Frame) (flow : FlowField) (cand : Frame) :
    (smoothedResult remapF cfg pgem pveo flow cand).h = cand.h ∧
    (smoothedResult remapF cfg pgem pveo flow cand).w = cand.w := by
  unfold smoothedResult
  dsimp only
  obtain ⟨h1, w1⟩ := processRegion_dims remapF cand flow cfg.geminiPos.x cfg.geminiPos.y
    cfg.geminiPos.width cfg.geminiPos.height pgem cfg.blendAlpha cfg.clampThreshold
  obtain ⟨h2, w2⟩ := processRegion_dims remapF
    (processRegion remapF cand flow cfg.geminiPos.x cfg.geminiPos.y cfg.geminiPos.width
      cfg.geminiPos.height pgem cfg.blendAlpha cfg.clampThreshold)
    flow cfg.veoPos.x cfg.veoPos.y cfg.veoPos.width cfg.veoPos.height pveo
    cfg.blendAlpha cfg.clampThreshold
  exact ⟨h2.trans h1, w2.trans w1⟩

theorem updateState_fields (cfg : TPConfig) (gray : GrayFrame) (r : Frame) (s : TPState) :
    (updateState cfg gray r s).prevGray ≠ none ∧
    ((updateState cfg gray r s).prevGemini ≠ none ↔
      (0 ≤ cfg.geminiPos.x ∧ cfg.geminiPos.x < (r.w : ℤ) ∧
        0 ≤ cfg.geminiPos.y ∧ cfg.geminiPos.y < (r.h : ℤ))) ∧
    ((updateState cfg gray r s).prevVeo ≠ none ↔
      (0 ≤ cfg.veoPos.x ∧ cfg.veoPos.x < (r.w : ℤ) ∧
        0 ≤ cfg.veoPos.y ∧ cfg.veoPos.y < (r.h : ℤ))) := by
  refine ⟨by simp [updateState], ?_, ?_⟩
  · by_cases hc : (0 ≤ cfg.geminiPos.x ∧ cfg.geminiPos.x < (r.w : ℤ) ∧
        0 ≤ cfg.geminiPos.y ∧ cfg.geminiPos.y < (r.h : ℤ)) <;>
      simp [updateState, hc]
  · by_cases hc : (0 ≤ cfg.veoPos.x ∧ cfg.veoPos.x < (r.w : ℤ) ∧
        0 ≤ cfg.veoPos.y ∧ cfg.veoPos.y < (r.h : ℤ)) <;>
      simp [updateState, hc]

/-- C6 counterexample: processing a first frame of size 10 × 10 through a
processor whose blend-type region starts at x = 100 leaves `prev_gray` set
while `prev_gemini_result` stays unset — the three previous-frame fields are
not all set together after this operation, contradicting the claimed
invariant. -/
theorem C6_counterexample :
    (process_frame cvt0 flowF0 remapF0 cfgOut initState frame10 frame10).2.prevGray ≠
      none ∧
    (process_frame cvt0 flowF0 remapF0 cfgOut initState frame10 frame10).2.prevGemini =
      none := by
  constructor
  · intro hcon
    exact Option.noConfusion hcon
  · rfl

/-- C6 (amended): after construction and after `reset` all three
previous-frame fields are unset; after any `process_frame` call, the previous
grayscale is always set, while each per-region crop is set exactly when that
region's top-left corner lies within the frame bounds — so the three fields
are not always all set or all unset together. -/
theorem C6_state_fields :
    (initState.prevGray = none ∧ initState.prevGemini = none ∧
      initState.prevVeo = none) ∧
    (∀ s : TPState, (resetState s).prevGray = none ∧ (resetState s).prevGemini = none ∧
      (resetState s).prevVeo = none) ∧
    (∀ (cvtGray : Frame → GrayFrame) (flowF : GrayFrame → GrayFrame → FlowField)
      (remapF : Frame → (ℕ → ℕ → ℚ) → (ℕ → ℕ → ℚ) → Frame) (cfg : TPConfig)
      (s : TPState) (orig cand : Frame),
      (process_frame cvtGray flowF remapF cfg s orig cand).2.prevGray ≠ none ∧
      ((process_frame cvtGray flowF remapF cfg s orig cand).2.prevGemini ≠ none ↔
        (0 ≤ cfg.geminiPos.x ∧ cfg.geminiPos.x < (cand.w : ℤ) ∧
          0 ≤ cfg.geminiPos.y ∧ cfg.geminiPos.y < (cand.h : ℤ))) ∧
      ((process_frame cvtGray flowF remapF cfg s orig cand).2.prevVeo ≠ none ↔
        (0 ≤ cfg.veoPos.x ∧ cfg.veoPos.x < (cand.w : ℤ) ∧
          0 ≤ cfg.veoPos.y ∧ cfg.veoPos.y < (cand.h : ℤ)))) := by
  refine ⟨⟨rfl, rfl, rfl⟩, fun s => ⟨rfl, rfl, rfl⟩, ?_⟩
  intro cvtGray flowF remapF cfg s orig cand
  obtain ⟨pgOpt, pgem, pveo, fc⟩ := s
  cases pgOpt with
  | none =>
    exact updateState_fields cfg (cvtGray orig) cand ⟨none, pgem, pveo, fc + 1⟩
  | some pg =>
    by_cases hcut : detect_scene_cut (flowF pg (cvtGray orig)) SCENE_CUT_THRESHOLD
    · have hred : process_frame cvtGray flowF remapF cfg ⟨some pg, pgem, pveo, fc⟩
          orig cand =
          (cand, updateState cfg (cvtGray orig) cand ⟨some pg, pgem, pveo, fc + 1⟩) := by
        unfold process_frame
        dsimp only
        rw [if_pos hcut]
      rw [hred]
      exact updateState_fields cfg (cvtGray orig) cand _
    · have hred : process_frame cvtGray flowF remapF cfg ⟨some pg, pgem, pveo, fc⟩
          orig cand =
          (smoothedResult remapF cfg pgem pveo (flowF pg (cvtGray orig)) cand,
            updateState cfg (cvtGray orig)
              (smoothedResult remapF cfg pgem pveo (flowF pg (cvtGray orig)) cand)
              ⟨some pg, pgem, pveo, fc + 1⟩) := by
        unfold process_frame
        dsimp only
        rw [if_neg hcut]
      rw [hred]
      obtain ⟨hh, hw⟩ := smoothedResult_dims remapF cfg pgem pveo
        (flowF pg (cvtGray orig)) cand
      have hfields := updateState_fields cfg (cvtGray orig)
        (smoothedResult remapF cfg pgem pveo (flowF pg (cvtGray orig)) cand)
        ⟨some pg, pgem, pveo, fc + 1⟩
      rw [hh, hw] at hfields
      exact hfields

end GWR
